import Mathlib

/-!
Shallow embedding of the session-history / Navigation API subsystem of the
repository (a Servo-like browser engine fragment), centred on
`src/components/script/dom/navigation.rs`, `src/components/script/navigable.rs`
and `src/components/constellation/navigable.rs`.

Modelling conventions:
* DOM promises are modelled by an explicit heap of promise states indexed by
  `Nat` identifiers; `Rc<Promise>` identity becomes identifier equality.
  Single-resolution semantics: settling an already-settled promise is a no-op.
* Rust panics (`unwrap`, `expect` on `None`) are modelled by `Except.error`
  with the panic message; ordinary returns are `Except.ok`.
* `DOMString` / `Uuid` keys are modelled as `String`.
* The `Document` collaborator (`dom/document.rs` is not part of the sources;
  the spec lists it as an external collaborator) is modelled as a record of
  the observable values the navigation code reads from it.
* URL parsing is delegated to the external `servo_url` crate; the embedding of
  `Navigate` takes the outcome of `ServoUrl::parse_with_base` as an input.
-/

namespace NavApi

/-- DOMException kinds used by the navigation code
(`crate::dom::bindings::error::Error`). -/
inductive Error where
  | InvalidState
  | Syntax
  | NotSupported
  | Security
  | Abort
  deriving Repr, DecidableEq

/-- State of a single-resolution promise. `resolved` abstracts over the
resolution value (a JS value), which the claims never inspect. -/
inductive PState where
  | pending
  | resolved
  | rejected (e : Error)
  deriving Repr, DecidableEq

/-- A heap of promises: a fresh-id counter and the state of each allocated
promise, newest first. -/
structure Heap where
  next : Nat
  states : List (Nat × PState)
  deriving Repr, DecidableEq

/-- Embeds `Promise::new`: allocate a fresh pending promise. -/
def Heap.newPromise (h : Heap) : Nat × Heap :=
  (h.next, ⟨h.next + 1, (h.next, PState.pending) :: h.states⟩)

/-- Current state of promise `p`. -/
def Heap.get (h : Heap) (p : Nat) : Option PState :=
  (h.states.find? (fun q => q.1 == p)).map (fun q => q.2)

/-- Settle promise `p` to state `s`; a no-op if `p` is already settled
(single-resolution semantics of the surrounding promise implementation). -/
def Heap.settle (h : Heap) (p : Nat) (s : PState) : Heap :=
  if h.get p = some PState.pending then
    ⟨h.next, h.states.map (fun q => if q.1 == p then (q.1, s) else q)⟩
  else h

/-- Embeds `Promise::reject_error`. -/
def Heap.reject_error (h : Heap) (p : Nat) (e : Error) : Heap :=
  h.settle p (PState.rejected e)

/-- Embeds `Promise::resolve_native`. -/
def Heap.resolve_native (h : Heap) (p : Nat) : Heap :=
  h.settle p PState.resolved

/-- Embeds `SessionHistoryEntryStep` from
`src/components/shared/net/session_history.rs` (the variant used by
`dom/navigation.rs`; `shared/script/session_history.rs` defines the same
shape). -/
inductive SessionHistoryEntryStep where
  | Pending
  | Integer (i : Nat)
  deriving Repr, DecidableEq

/-- Embeds `SessionHistoryEntry` from `src/components/shared/net/session_history.rs`,
restricted to the fields the navigation code reads: its step and its
navigation API key (a `Uuid`, modelled as `String`). -/
structure SessionHistoryEntry where
  step : SessionHistoryEntryStep
  navigation_api_key : String
  deriving Repr, DecidableEq

/-- Embeds `HistoryApplicationResult` (declared in `dom/document.rs`, an external
collaborator; variants named by the spec: Applied / CancelledByBeforeUnload /
InitiatorDisallowed). -/
inductive HistoryApplicationResult where
  | Applied
  | CancelledByBeforeUnload
  | InitiatorDisallowed
  deriving Repr, DecidableEq

/-- The `Document` collaborator, modelled as the record of values the
navigation code observes through it (`is_fully_active()`,
`is_initial_about_blank()`, opaqueness of `origin()`,
`get_unload_counter_value()`, `get_session_history_entries()`, presence of
`browsing_context()` and its `is_active_session_history_entry` test, and the
result `apply_history_step` will report). -/
structure Document where
  is_fully_active : Bool
  is_initial_about_blank : Bool
  origin_is_opaque : Bool
  unload_counter : Nat
  session_history_entries : List SessionHistoryEntry
  has_browsing_context : Bool
  active_entry_key : Option String
  apply_history_step_result : HistoryApplicationResult

/-- Embeds `browsing_context.is_active_session_history_entry(&entry)`: the browsing
context compares against its active entry; modelled by key. -/
def Document.is_active_session_history_entry
    (d : Document) (e : SessionHistoryEntry) : Bool :=
  d.active_entry_key == some e.navigation_api_key

/-- Embeds `NavigationHistoryEntry` (`dom/navigationhistoryentry.rs`), restricted to
what the navigation code reads: `Key()` returns the stored key string. -/
structure NavigationHistoryEntry where
  key : String
  deriving Repr, DecidableEq

/-- Embeds `NavigationApiMethodTracker` from `dom/navigation.rs`: optional key,
optional serialized state, optionally committed-to entry (by key), and the
committed/finished promise pair (promise ids into the heap). -/
structure NavigationApiMethodTracker where
  key : Option String
  state : Option String
  committed_to_entry : Option String
  committed_promise : Nat
  finished_promise : Nat
  deriving Repr, DecidableEq

/-- Embeds `NavigationApiMethodTracker::new`: key/state/committed_to_entry start as
`None`; absent promises are freshly allocated (`unwrap_or(Promise::new(..))`). -/
def NavigationApiMethodTracker.new (h : Heap) (state : Option String)
    (committed_promise finished_promise : Option Nat) :
    NavigationApiMethodTracker × Heap :=
  let (cp, h1) := match committed_promise with
    | some p => (p, h)
    | none => h.newPromise
  let (fp, h2) := match finished_promise with
    | some p => (p, h1)
    | none => h1.newPromise
  (⟨none, state, none, cp, fp⟩, h2)

/-- Embeds `NavigationResult` dictionary: optional committed/finished promises. -/
structure NavigationResult where
  committed : Option Nat
  finished : Option Nat
  deriving Repr, DecidableEq

/-- Mutable state of one `Navigation` object together with the promise heap:
entry list, current entry index, the single upcoming non-traverse tracker and
the ordered upcoming-traverse map (an `IndexMap<String, _>` modelled as an
association list in map order). -/
structure Machine where
  heap : Heap
  entry_list : List NavigationHistoryEntry
  current_entry_index : Option Nat
  upcoming_non_traverse_method_tracker : Option NavigationApiMethodTracker
  upcoming_traverse_method_tracker : List (String × NavigationApiMethodTracker)
  deriving Repr, DecidableEq

/-- Embeds `has_entries_and_events_disabled`: document not fully active, or initial
about:blank, or opaque origin. -/
def has_entries_and_events_disabled (d : Document) : Bool :=
  if !d.is_fully_active then true
  else if d.is_initial_about_blank then true
  else d.origin_is_opaque

/-- Embeds `early_error_result(error)`: a fresh promise rejected with the error,
used for both the committed and finished members. -/
def early_error_result (m : Machine) (e : Error) : NavigationResult × Machine :=
  let (p, h1) := m.heap.newPromise
  let h2 := h1.reject_error p e
  (⟨some p, some p⟩, { m with heap := h2 })

/-- Embeds `method_tracker_derived_result(entry)`: allocates and resolves a stray
promise (the code resolves a fresh promise with the result dictionary), then
returns the tracker's own committed/finished promises. -/
def method_tracker_derived_result (m : Machine)
    (t : NavigationApiMethodTracker) : NavigationResult × Machine :=
  let (p, h1) := m.heap.newPromise
  let h2 := h1.resolve_native p
  (⟨some t.committed_promise, some t.finished_promise⟩, { m with heap := h2 })

/-- Embeds `GetCurrentEntry`: `None` when entries and events are disabled or the
index is absent, else the entry at the current index. -/
def GetCurrentEntry (d : Document) (m : Machine) :
    Option NavigationHistoryEntry :=
  if has_entries_and_events_disabled d then none
  else match m.current_entry_index with
    | some idx => m.entry_list.get? idx
    | none => none

/-- Embeds `CanGoBack`: false when disabled or index absent, else `idx > 0`. -/
def CanGoBack (d : Document) (m : Machine) : Bool :=
  if has_entries_and_events_disabled d then false
  else match m.current_entry_index with
    | some idx => idx > 0
    | none => false

/-- Embeds `CanGoForward` as the code writes it: false when disabled or index
absent, else `idx == entry_list.len() - 1`. (The code's own step comments say
the result should be `false` at the last index; the implemented comparison
returns `true` exactly there.) -/
def CanGoForward (d : Document) (m : Machine) : Bool :=
  if has_entries_and_events_disabled d then false
  else match m.current_entry_index with
    | some idx => idx == m.entry_list.length - 1
    | none => false

/-- Embeds `IndexMap::insert_sorted` (external `indexmap` crate, per its documented
behaviour): insert the pair at its ordered position among sorted keys; if the
key is already present its value is updated in place and the OLD value is
returned inside `some`; for a new key, `none` is returned. -/
def insert_sorted (l : List (String × NavigationApiMethodTracker))
    (k : String) (v : NavigationApiMethodTracker) :
    List (String × NavigationApiMethodTracker) ×
      Option NavigationApiMethodTracker :=
  match l with
  | [] => ([(k, v)], none)
  | (k', v') :: rest =>
    if k = k' then ((k, v) :: rest, some v')
    else if k < k' then ((k, v) :: (k', v') :: rest, none)
    else
      let (r, old) := insert_sorted rest k v
      ((k', v') :: r, old)

/-- Embeds `add_an_upcoming_traverse_api_method_tracker(key)`: create the
committed/finished promises, resolve the finished promise (the code's
rendering of "mark as handled"), build the tracker, `insert_sorted` it into
the upcoming-traverse map, and `unwrap()` the returned OLD value — which is
`none` whenever the key was not already present, so the `unwrap` panics
(modelled by `Except.error`). -/
def add_an_upcoming_traverse_api_method_tracker (m : Machine) (key : String) :
    Except String (NavigationApiMethodTracker × Machine) :=
  let (cp, h1) := m.heap.newPromise
  let (fp, h2) := h1.newPromise
  let h3 := h2.resolve_native fp
  let (tracker, h4) :=
    NavigationApiMethodTracker.new h3 none (some cp) (some fp)
  let (map', old) :=
    insert_sorted m.upcoming_traverse_method_tracker key tracker
  let m' := { m with heap := h4, upcoming_traverse_method_tracker := map' }
  match old with
  | some t => Except.ok (t, m')
  | none => Except.error "called Option.unwrap on a None value"

/-- Embeds `maybe_set_the_upcoming_non_traverse_api_method_tracker`: same promise
pair construction; the tracker is installed into the single-slot field only
when entries and events are not disabled. -/
def maybe_set_the_upcoming_non_traverse_api_method_tracker
    (d : Document) (m : Machine) : NavigationApiMethodTracker × Machine :=
  let (cp, h1) := m.heap.newPromise
  let (fp, h2) := h1.newPromise
  let h3 := h2.resolve_native fp
  let (tracker, h4) :=
    NavigationApiMethodTracker.new h3 none (some cp) (some fp)
  let m' := { m with heap := h4 }
  if !has_entries_and_events_disabled d then
    (tracker, { m' with upcoming_non_traverse_method_tracker := some tracker })
  else (tracker, m')

/-- The `match result` at the end of `perform_a_navigation_api_traversal`
(Steps 12.5/12.6): every arm — including `CancelledByBeforeUnload` and
`InitiatorDisallowed` — has an empty body, so the machine is returned
unchanged and no promise is ever rejected here. -/
def handle_apply_history_step_result (r : HistoryApplicationResult)
    (m : Machine) : Machine :=
  match r with
  | HistoryApplicationResult.CancelledByBeforeUnload => m
  | HistoryApplicationResult.InitiatorDisallowed => m
  | _ => m

/-- Embeds `perform_a_navigation_api_traversal(key, options)` as implemented:
guards (fully active, unload counter), the current-entry short-circuit, the
upcoming-traverse-map short-circuit, then
`add_an_upcoming_traverse_api_method_tracker` (which panics for any key not
already in the map), the `find(..).unwrap()` over the document's session
history entries (panics when no entry's key matches), the browsing-context /
active-entry / pending-step early errors, the `apply_history_step` call whose
result is matched by empty arms, and finally the tracker-derived result. -/
def perform_a_navigation_api_traversal (d : Document) (m : Machine)
    (key : String) : Except String (NavigationResult × Machine) :=
  -- Step 2
  if !d.is_fully_active then Except.ok (early_error_result m Error.InvalidState)
  -- Step 3
  else if d.unload_counter > 0 then
    Except.ok (early_error_result m Error.InvalidState)
  else
    -- Steps 4-5
    let short : Option (NavigationResult × Machine) :=
      match GetCurrentEntry d m with
      | some entry =>
        if entry.key = key then
          let (p, h1) := m.heap.newPromise
          let h2 := h1.resolve_native p
          some (⟨some p, some p⟩, { m with heap := h2 })
        else none
      | none => none
    match short with
    | some r => Except.ok r
    | none =>
      -- Step 6
      match m.upcoming_traverse_method_tracker.lookup key with
      | some entry => Except.ok (method_tracker_derived_result m entry)
      | none =>
        -- Step 8
        match add_an_upcoming_traverse_api_method_tracker m key with
        | Except.error msg => Except.error msg
        | Except.ok (api_method_tracker, m1) =>
          -- Steps 12.1-12.2: find the target session history entry; the
          -- code calls `.unwrap()` on the `find` result.
          match d.session_history_entries.find?
              (fun e => e.navigation_api_key == key) with
          | none => Except.error "called Option.unwrap on a None value"
          | some target_she =>
            if !d.has_browsing_context then
              Except.ok (early_error_result m1 Error.InvalidState)
            -- Step 12.3
            else if d.is_active_session_history_entry target_she then
              Except.ok (early_error_result m1 Error.InvalidState)
            else
              -- Step 12.4
              match target_she.step with
              | SessionHistoryEntryStep.Pending =>
                Except.ok (early_error_result m1 Error.InvalidState)
              | SessionHistoryEntryStep.Integer _ =>
                let result := d.apply_history_step_result
                -- Steps 12.5/12.6: empty match arms
                let m2 := handle_apply_history_step_result result m1
                -- Step 13
                Except.ok (method_tracker_derived_result m2 api_method_tracker)

/-- Outcome of `ServoUrl::parse_with_base` (external `servo_url` crate),
restricted to what `Navigate` inspects: the scheme of a successfully parsed
URL, or failure. -/
structure Url where
  scheme : String
  deriving Repr, DecidableEq

/-- Embeds `Navigate(url, options)` as implemented: Syntax early error on URL parse
failure; NotSupported early error when history is "push" and the navigation
must be a replace; InvalidState early errors for an inactive document or
pending unloads; and — the method body being a stub past that point — a
Syntax early error on the remaining path. `parsed` is the outcome of the
external URL parse; `history_is_push` is `options.history == Push`. -/
def Navigate (d : Document) (m : Machine) (parsed : Option Url)
    (history_is_push : Bool) : NavigationResult × Machine :=
  match parsed with
  | none => early_error_result m Error.Syntax
  | some url_record =>
    if history_is_push &&
        (url_record.scheme == "javascript" || d.is_initial_about_blank) then
      early_error_result m Error.NotSupported
    else if !d.is_fully_active then
      early_error_result m Error.InvalidState
    else if d.unload_counter > 0 then
      early_error_result m Error.InvalidState
    else
      early_error_result m Error.Syntax

/-- Embeds `Reload(options)` as implemented: when the document is not fully active
it returns `Err(Error::InvalidState)` — a thrown exception, not a
`NavigationResult`; otherwise it installs a non-traverse tracker and returns
its derived result. -/
def Reload (d : Document) (m : Machine) :
    Except Error (NavigationResult × Machine) :=
  if !d.is_fully_active then Except.error Error.InvalidState
  else
    let (t, m') := maybe_set_the_upcoming_non_traverse_api_method_tracker d m
    Except.ok (method_tracker_derived_result m' t)

/-- Embeds `Back(options)`: early InvalidState error when the index is absent or
`< 1`, else traverse to the key of the entry at index − 1. -/
def Back (d : Document) (m : Machine) :
    Except String (NavigationResult × Machine) :=
  match m.current_entry_index with
  | none => Except.ok (early_error_result m Error.InvalidState)
  | some i =>
    if i < 1 then Except.ok (early_error_result m Error.InvalidState)
    else match m.entry_list.get? (i - 1) with
      | some entry => perform_a_navigation_api_traversal d m entry.key
      | none => Except.ok (early_error_result m Error.InvalidState)

/-- Embeds `Forward(options)`: early InvalidState error when the index is absent,
`< 1`, or equal to the entry list length, else traverse to the key of the
entry at index + 1. -/
def Forward (d : Document) (m : Machine) :
    Except String (NavigationResult × Machine) :=
  match m.current_entry_index with
  | none => Except.ok (early_error_result m Error.InvalidState)
  | some i =>
    if i < 1 || i = m.entry_list.length then
      Except.ok (early_error_result m Error.InvalidState)
    else match m.entry_list.get? (i + 1) with
      | some entry => perform_a_navigation_api_traversal d m entry.key
      | none => Except.ok (early_error_result m Error.InvalidState)

/-- Embeds `TraverseTo(key, options)` as implemented: identical to `Forward` — the
`key` argument (bound as `_key`) is never consulted; the traversal goes to
the key of the entry at index + 1. -/
def TraverseTo (d : Document) (m : Machine) (_key : String) :
    Except String (NavigationResult × Machine) :=
  match m.current_entry_index with
  | none => Except.ok (early_error_result m Error.InvalidState)
  | some i =>
    if i < 1 || i = m.entry_list.length then
      Except.ok (early_error_result m Error.InvalidState)
    else match m.entry_list.get? (i + 1) with
      | some entry => perform_a_navigation_api_traversal d m entry.key
      | none => Except.ok (early_error_result m Error.InvalidState)

/-- An entries-and-events-enabled document with no pending unloads, used as a
concrete collaborator in counterexamples. -/
def docEnabled : Document :=
  { is_fully_active := true
  , is_initial_about_blank := false
  , origin_is_opaque := false
  , unload_counter := 0
  , session_history_entries := []
  , has_browsing_context := true
  , active_entry_key := none
  , apply_history_step_result := HistoryApplicationResult.Applied }

/-- An empty machine state. -/
def machine0 : Machine :=
  { heap := ⟨0, []⟩
  , entry_list := []
  , current_entry_index := none
  , upcoming_non_traverse_method_tracker := none
  , upcoming_traverse_method_tracker := [] }

/-- A machine whose entry list has keys a, b, c and whose current index is
`i`. -/
def machineABC (i : Nat) : Machine :=
  { machine0 with
      entry_list := [⟨"a"⟩, ⟨"b"⟩, ⟨"c"⟩]
    , current_entry_index := some i }

/-- A document that is not fully active; otherwise like `docEnabled`. -/
def docInactive : Document := { docEnabled with is_fully_active := false }

/-- A concrete already-registered method tracker whose committed/finished
promises are ids 100/101. -/
def t0 : NavigationApiMethodTracker := ⟨none, none, none, 100, 101⟩

/-- A heap in which promises 100 and 101 exist and are pending. -/
def heap100 : Heap := ⟨102, [(100, PState.pending), (101, PState.pending)]⟩

/-- A machine whose upcoming-traverse map already holds `t0` under key
`"a"`. -/
def mT : Machine :=
  { machine0 with
      heap := heap100
    , upcoming_traverse_method_tracker := [("a", t0)] }

/-- A machine with entry keys a, b, c, current index 1, and `t0` registered
in the upcoming-traverse map under key `"c"`. -/
def mC3 : Machine :=
  { machine0 with
      heap := heap100
    , entry_list := [⟨"a"⟩, ⟨"b"⟩, ⟨"c"⟩]
    , current_entry_index := some 1
    , upcoming_traverse_method_tracker := [("c", t0)] }

/-- A machine with a single entry of key b at current index 0, and `t0`
registered under key `"a"`. -/
def mReg : Machine :=
  { machine0 with
      heap := heap100
    , entry_list := [⟨"b"⟩]
    , current_entry_index := some 0
    , upcoming_traverse_method_tracker := [("a", t0)] }

/-- An early-rejected result for error `e`: the outcome's committed and
finished members are the same promise, rejected with `e`, and the navigation
state (entry list, current index, both tracker structures) is that of the
starting machine `m`. -/
def earlyRejectedWith (e : Error) (out : NavigationResult × Machine)
    (m : Machine) : Prop :=
  ∃ p, out.1.committed = some p ∧ out.1.finished = some p ∧
    out.2.heap.get p = some (PState.rejected e) ∧
    out.2.entry_list = m.entry_list ∧
    out.2.current_entry_index = m.current_entry_index ∧
    out.2.upcoming_traverse_method_tracker =
      m.upcoming_traverse_method_tracker ∧
    out.2.upcoming_non_traverse_method_tracker =
      m.upcoming_non_traverse_method_tracker

end NavApi

namespace ScriptNav

/-!
Embedding of `src/components/script/navigable.rs`: the script-side
`DocumentState`, `SessionHistoryEntry` and `Navigable` with
`Navigable::initialize` (named `initialize_the_navigable` here, after the
HTML algorithm it implements, since `initialize` is a reserved word in Lean).
`DomRoot<Document>` is modelled by the document's observable URL;
`Weak<Navigable>` parent references by an optional id.
-/

/-- The document as the script-side `DocumentState` sees it: only its URL is
read (`document.borrow().url()`). -/
structure SDocument where
  url : String
  deriving Repr, DecidableEq

/-- Embeds `DocumentState` from `src/components/script/navigable.rs`. -/
structure DocumentState where
  document : Option SDocument
  reload_pending : Bool
  deriving Repr, DecidableEq

/-- Embeds `SessionHistoryEntryStep` (script-side copy); `Pending` is the `Default`
variant. -/
inductive SessionHistoryEntryStep where
  | Pending
  | Integer (i : Nat)
  deriving Repr, DecidableEq

/-- Embeds `ScrollRestorationMode`; `Auto` is the `Default` variant. -/
inductive ScrollRestorationMode where
  | Auto
  | Manual
  deriving Repr, DecidableEq

/-- Embeds `SessionHistoryEntry` from `src/components/script/navigable.rs`. -/
structure SessionHistoryEntry where
  step : SessionHistoryEntryStep
  url : String
  document_state : DocumentState
  scroll_restoration_mode : ScrollRestorationMode
  deriving Repr, DecidableEq

/-- Embeds `Convert<SessionHistoryEntry> for DocumentState`: `expect`s the document
(`none` models the panic), and builds an entry with `step:
Default::default()` — i.e. `Pending` — the document's URL, a fresh document
state holding the document, and the default scroll restoration mode. -/
def convert (ds : DocumentState) : Option SessionHistoryEntry :=
  ds.document.map (fun d =>
    ⟨SessionHistoryEntryStep.Pending, d.url, ⟨some d, false⟩,
     ScrollRestorationMode.Auto⟩)

/-- Embeds `Navigable` from `src/components/script/navigable.rs`. -/
structure Navigable where
  id : Nat
  parent : Option Nat
  current_session_history_entry : SessionHistoryEntry
  active_session_history_entry : SessionHistoryEntry
  is_closing : Bool
  is_delaying_load_events : Bool
  deriving Repr, DecidableEq

/-- Embeds `Navigable::initialize(document_state, parent)`: assert the document is
present (`none` on violation), convert the document state to a fresh entry,
set it as both the current and the active session history entry, and record
the parent link. The function touches nothing else — in particular no
session-history entry list. -/
def initialize_the_navigable (nav : Navigable) (ds : DocumentState)
    (parent : Option Nat) : Option Navigable :=
  (convert ds).map (fun entry =>
    { nav with
        current_session_history_entry := entry
      , active_session_history_entry := entry
      , parent := parent })

/-- The `Default` impl for the script-side `SessionHistoryEntry`: pending
step, about:blank URL, default document state, auto scroll restoration. -/
def default_session_history_entry : SessionHistoryEntry :=
  ⟨SessionHistoryEntryStep.Pending, "about:blank", ⟨none, false⟩,
   ScrollRestorationMode.Auto⟩

/-- A concrete document state carrying a document. -/
def ds0 : DocumentState := ⟨some ⟨"https://example.test/"⟩, false⟩

/-- A concrete navigable in its default state. -/
def nav0 : Navigable :=
  ⟨1, none, default_session_history_entry, default_session_history_entry,
   false, false⟩

end ScriptNav

namespace Constellation

/-!
Embedding of the traversal-step computation of
`src/components/constellation/navigable.rs`. The session history entry type
it consumes (`script_traits::session_history::SessionHistoryEntry`,
`src/components/shared/script/session_history.rs`) has the same step/key
shape as the shared net-side entry, so `NavApi.SessionHistoryEntry` is
reused.
-/

/-- Modelled from the spec: `get_the_used_step` is commented out in
`src/components/constellation/navigable.rs` (and its helper
`get_all_used_history_steps` is stubbed to return `None`), so the live code
is missing; this definition follows the spec's words — "the greatest
recorded step ≤ the requested step" — with the recorded steps passed
explicitly and `0` when no recorded step qualifies, matching the
commented-out `steps.range(..=step).next_back().cloned().unwrap_or(0)`. -/
def get_the_used_step (steps : List Nat) (step : Nat) : Nat :=
  (steps.filter (fun t => decide (t ≤ step))).foldl Nat.max 0

/-- The filter used by `get_the_target_history_entry`: keeps an entry when
its step is an integer not exceeding the given step. -/
def entry_step_within (step : Nat) (e : NavApi.SessionHistoryEntry) : Bool :=
  match e.step with
  | NavApi.SessionHistoryEntryStep.Integer i => decide (i ≤ step)
  | NavApi.SessionHistoryEntryStep.Pending => false

/-- Modelled from the spec: `get_the_target_history_entry` is commented out
in `src/components/constellation/navigable.rs`; this definition follows the
spec's words — "the entry with the greatest step ≤ used step" — as the
commented-out body computes it: the last entry whose step is an integer
≤ the given step (`none` models the `expect` on an empty filter). -/
def get_the_target_history_entry (entries : List NavApi.SessionHistoryEntry)
    (step : Nat) : Option NavApi.SessionHistoryEntry :=
  (entries.filter (entry_step_within step)).getLast?

/-- Modelled from the spec: `apply_history_step` is commented out in
`src/components/constellation/navigable.rs`; per the spec's algorithm
(a)–(b), the used step is computed from the requested step and each changing
navigable's target entry is resolved against that used step. -/
def apply_history_step_targets (steps : List Nat)
    (entries : List NavApi.SessionHistoryEntry) (step : Nat) :
    Nat × Option NavApi.SessionHistoryEntry :=
  let target_step := get_the_used_step steps step
  (target_step, get_the_target_history_entry entries target_step)

/-- Step-wise comparison used to state the entry-list ordering invariant
("step values non-decreasing"): constrains only pairs of integer steps. -/
def stepLE (a b : NavApi.SessionHistoryEntry) : Bool :=
  match a.step, b.step with
  | NavApi.SessionHistoryEntryStep.Integer i,
    NavApi.SessionHistoryEntryStep.Integer j => decide (i ≤ j)
  | _, _ => true

end Constellation

namespace NavApi

/-- C1: with entries and events enabled and an entry list of length 3, the
code's `CanGoForward` returns `false` at index 1 and `true` at index 2 — the
opposite of the claim (and of the code's own step comments), which require
`true` at index 1 and `false` at the last index 2. -/
theorem CanGoForward_inverted_at_last_index :
    CanGoForward docEnabled (machineABC 1) = false ∧
    CanGoForward docEnabled (machineABC 2) = true := by
  constructor <;> rfl

/-- Every early error result is an early-rejected result: the committed and
finished members share one fresh promise rejected with the error, and the
navigation state other than the promise heap is unchanged. -/
theorem early_error_result_spec (m : Machine) (e : Error) :
    earlyRejectedWith e (early_error_result m e) m := by
  refine ⟨m.heap.next, rfl, rfl, ?_, rfl, rfl, rfl, rfl⟩
  simp [early_error_result, Heap.newPromise, Heap.reject_error, Heap.settle,
    Heap.get]

/-- C2: `perform_a_navigation_api_traversal` panics instead of returning a
`NavigationResult`: on a fully active document with no pending unloads, a key
that matches no session history entry (here the document has none at all) and
is not yet in the upcoming-traverse map reaches the `unwrap()` on the `None`
returned by `insert_sorted`, aborting rather than producing a typed
rejection. -/
theorem perform_traversal_panics_on_fresh_key :
    perform_a_navigation_api_traversal docEnabled machine0 "k" =
      Except.error "called Option.unwrap on a None value" ∧
    docEnabled.session_history_entries.all
      (fun e => e.navigation_api_key ≠ "k") = true :=
  ⟨rfl, by decide⟩

/-- C3: `TraverseTo` ignores its key argument. With entry keys a, b, c,
current index 1, and a tracker registered under `"c"`, calling
`TraverseTo("zzz")` — a key matching no entry — does not return an early
InvalidStateError result with rejected promises: it traverses to the key of
the entry at index 2 and returns that tracker's derived result, whose
committed and finished promises are still pending. -/
theorem TraverseTo_ignores_missing_key :
    mC3.entry_list.all (fun e => e.key ≠ "zzz") = true ∧
    (TraverseTo docEnabled mC3 "zzz").toOption.map
      (fun out => (out.1, out.2.heap.get 100, out.2.heap.get 101)) =
      some (⟨some 100, some 101⟩, some PState.pending, some PState.pending) :=
  ⟨by decide, rfl⟩

/-- C4: `add_an_upcoming_traverse_api_method_tracker` does not return the
newly inserted tracker. For a key not already present (empty map) it panics:
`insert_sorted` returns `none` as the previous value and the code `unwrap`s
it. For a key already present it returns the OLD tracker `t0`, while the map
now holds the new tracker (promises 102/103) — so the returned tracker is not
the one stored under the key. -/
theorem add_tracker_unwrap_behaviour :
    add_an_upcoming_traverse_api_method_tracker machine0 "a" =
      Except.error "called Option.unwrap on a None value" ∧
    (add_an_upcoming_traverse_api_method_tracker mT "a").toOption.map
      (fun out => (out.1, out.2.upcoming_traverse_method_tracker)) =
      some (t0, [("a", ⟨none, none, none, 102, 103⟩)]) ∧
    t0.committed_promise ≠ 102 :=
  ⟨rfl, rfl, by decide⟩

/-- C6: the match on the `apply_history_step` result has empty arms — for
`CancelledByBeforeUnload` and `InitiatorDisallowed` alike the machine is
returned unchanged, so the tracker's finished promise (promise 101 of `t0`,
pending in `mT`) is never rejected with an AbortError or SecurityError. -/
theorem apply_result_match_arms_are_empty :
    (∀ (r : HistoryApplicationResult) (m : Machine),
       handle_apply_history_step_result r m = m) ∧
    mT.heap.get t0.finished_promise = some PState.pending := by
  refine ⟨fun r m => ?_, rfl⟩
  cases r <;> rfl

/-- C5 counterexample: with the document not fully active, `Reload` returns
`Err(InvalidStateError)` — a thrown exception, not a returned
`NavigationResult` — and `Navigate` on an unparseable URL returns an early
error result for a Syntax error, not an InvalidStateError. -/
theorem inactive_document_not_always_invalid_state_result :
    Reload docInactive machine0 = Except.error Error.InvalidState ∧
    (Navigate docInactive machine0 none true).1.committed = some 0 ∧
    (Navigate docInactive machine0 none true).2.heap.get 0 =
      some (PState.rejected Error.Syntax) :=
  ⟨rfl, rfl, rfl⟩

/-- C5 amended: on a document that is not fully active, `Back`, `Forward`
and `TraverseTo` return an early-rejected InvalidStateError result leaving
the entry list (and all navigation state) unchanged; `Navigate` does so
provided the URL parsed and the push-must-replace check does not fire; and
`Reload` returns `Err(InvalidStateError)` — surfaced as a thrown exception
rather than a returned `NavigationResult`. -/
theorem inactive_document_method_results (d : Document) (m : Machine)
    (key : String) (push : Bool) (u : Url)
    (h : d.is_fully_active = false)
    (hu : (push && (u.scheme == "javascript" || d.is_initial_about_blank))
      = false) :
    (∃ out, Back d m = Except.ok out ∧
      earlyRejectedWith Error.InvalidState out m) ∧
    (∃ out, Forward d m = Except.ok out ∧
      earlyRejectedWith Error.InvalidState out m) ∧
    (∃ out, TraverseTo d m key = Except.ok out ∧
      earlyRejectedWith Error.InvalidState out m) ∧
    earlyRejectedWith Error.InvalidState (Navigate d m (some u) push) m ∧
    Reload d m = Except.error Error.InvalidState := by
  have hperf : ∀ k, perform_a_navigation_api_traversal d m k =
      Except.ok (early_error_result m Error.InvalidState) := by
    intro k
    unfold perform_a_navigation_api_traversal
    simp [h]
  have hback : Back d m =
      Except.ok (early_error_result m Error.InvalidState) := by
    unfold Back
    split
    · rfl
    · split
      · rfl
      · split
        · exact hperf _
        · rfl
  have hforward : Forward d m =
      Except.ok (early_error_result m Error.InvalidState) := by
    unfold Forward
    split
    · rfl
    · split
      · rfl
      · split
        · exact hperf _
        · rfl
  have htrav : TraverseTo d m key =
      Except.ok (early_error_result m Error.InvalidState) := by
    unfold TraverseTo
    split
    · rfl
    · split
      · rfl
      · split
        · exact hperf _
        · rfl
  have hnav : Navigate d m (some u) push =
      early_error_result m Error.InvalidState := by
    unfold Navigate
    simp [hu, h]
  have hreload : Reload d m = Except.error Error.InvalidState := by
    unfold Reload
    simp [h]
  exact ⟨⟨_, hback, early_error_result_spec m _⟩,
    ⟨_, hforward, early_error_result_spec m _⟩,
    ⟨_, htrav, early_error_result_spec m _⟩,
    hnav ▸ early_error_result_spec m _, hreload⟩

/-- Witness for the amended C5 theorem at a concrete inactive document. -/
theorem inactive_document_method_results_witness :
    docInactive.is_fully_active = false ∧
    ((false && ((Url.mk "https").scheme == "javascript" ||
      docInactive.is_initial_about_blank)) = false) ∧
    ((∃ out, Back docInactive (machineABC 1) = Except.ok out ∧
       earlyRejectedWith Error.InvalidState out (machineABC 1)) ∧
     (∃ out, Forward docInactive (machineABC 1) = Except.ok out ∧
       earlyRejectedWith Error.InvalidState out (machineABC 1)) ∧
     (∃ out, TraverseTo docInactive (machineABC 1) "b" = Except.ok out ∧
       earlyRejectedWith Error.InvalidState out (machineABC 1)) ∧
     earlyRejectedWith Error.InvalidState
       (Navigate docInactive (machineABC 1) (some (Url.mk "https")) false)
       (machineABC 1) ∧
     Reload docInactive (machineABC 1) = Except.error Error.InvalidState) :=
  ⟨rfl, by decide,
    inactive_document_method_results docInactive (machineABC 1) "b" false
      (Url.mk "https") rfl (by decide)⟩

/-- C7: if a tracker `t` is already registered for `key` in the
upcoming-traverse map, and the guards that held when it was registered still
hold (document fully active, no pending unloads, `key` not the current
entry's key), then a second `perform_a_navigation_api_traversal` with the
same key returns the tracker-derived result of `t` — its committed and
finished promises — and registers no second tracker: the map and all other
navigation state are unchanged. -/
theorem perform_traversal_idempotent (d : Document) (m : Machine)
    (key : String) (t : NavigationApiMethodTracker)
    (hact : d.is_fully_active = true)
    (hun : d.unload_counter = 0)
    (hcur : ∀ e, GetCurrentEntry d m = some e → e.key ≠ key)
    (hmap : m.upcoming_traverse_method_tracker.lookup key = some t) :
    ∃ m', perform_a_navigation_api_traversal d m key =
        Except.ok (⟨some t.committed_promise, some t.finished_promise⟩, m') ∧
      m'.upcoming_traverse_method_tracker =
        m.upcoming_traverse_method_tracker ∧
      m'.entry_list = m.entry_list ∧
      m'.current_entry_index = m.current_entry_index ∧
      m'.upcoming_non_traverse_method_tracker =
        m.upcoming_non_traverse_method_tracker := by
  unfold perform_a_navigation_api_traversal
  simp only [hact, hun, Bool.not_true, Bool.false_eq_true, if_false,
    gt_iff_lt, Nat.lt_irrefl, if_neg, Nat.not_lt_zero, not_false_iff]
  cases hg : GetCurrentEntry d m with
  | none =>
    simp [hmap, method_tracker_derived_result]
  | some e =>
    have hne : ¬ e.key = key := hcur e hg
    simp [hne, hmap, method_tracker_derived_result]

/-- Witness for the C7 theorem: tracker `t0` registered under `"a"`, current
entry key `"b"`. -/
theorem perform_traversal_idempotent_witness :
    docEnabled.is_fully_active = true ∧
    docEnabled.unload_counter = 0 ∧
    (∀ e, GetCurrentEntry docEnabled mReg = some e → e.key ≠ "a") ∧
    mReg.upcoming_traverse_method_tracker.lookup "a" = some t0 ∧
    (∃ m', perform_a_navigation_api_traversal docEnabled mReg "a" =
        Except.ok (⟨some t0.committed_promise, some t0.finished_promise⟩,
          m') ∧
      m'.upcoming_traverse_method_tracker =
        mReg.upcoming_traverse_method_tracker ∧
      m'.entry_list = mReg.entry_list ∧
      m'.current_entry_index = mReg.current_entry_index ∧
      m'.upcoming_non_traverse_method_tracker =
        mReg.upcoming_non_traverse_method_tracker) := by
  have hcur : ∀ e, GetCurrentEntry docEnabled mReg = some e →
      e.key ≠ "a" := by
    intro e he
    have : (⟨"b"⟩ : NavigationHistoryEntry) = e := Option.some.inj he
    rw [← this]
    decide
  exact ⟨rfl, rfl, hcur, rfl,
    perform_traversal_idempotent docEnabled mReg "a" t0 rfl rfl hcur rfl⟩

/-- C10: with current entry index 0 and at least two entries (so a forward
entry exists), `Forward` — and likewise `TraverseTo`, for any key — returns
an early-rejected InvalidStateError result and performs no traversal: the
guard rejects every index strictly below 1. -/
theorem forward_guard_rejects_index_zero (d : Document) (m : Machine)
    (key : String) (h0 : m.current_entry_index = some 0)
    (hlen : 2 ≤ m.entry_list.length) :
    (∃ out, Forward d m = Except.ok out ∧
      earlyRejectedWith Error.InvalidState out m) ∧
    (∃ out, TraverseTo d m key = Except.ok out ∧
      earlyRejectedWith Error.InvalidState out m) := by
  have hf : Forward d m =
      Except.ok (early_error_result m Error.InvalidState) := by
    unfold Forward
    rw [h0]
    simp
  have ht : TraverseTo d m key =
      Except.ok (early_error_result m Error.InvalidState) := by
    unfold TraverseTo
    rw [h0]
    simp
  exact ⟨⟨_, hf, early_error_result_spec m _⟩,
    ⟨_, ht, early_error_result_spec m _⟩⟩

/-- Witness for the C10 theorem at index 0 of a three-entry list. -/
theorem forward_guard_rejects_index_zero_witness :
    (machineABC 0).current_entry_index = some 0 ∧
    2 ≤ (machineABC 0).entry_list.length ∧
    ((∃ out, Forward docEnabled (machineABC 0) = Except.ok out ∧
       earlyRejectedWith Error.InvalidState out (machineABC 0)) ∧
     (∃ out, TraverseTo docEnabled (machineABC 0) "x" = Except.ok out ∧
       earlyRejectedWith Error.InvalidState out (machineABC 0))) :=
  ⟨rfl, by decide,
    forward_guard_rejects_index_zero docEnabled (machineABC 0) "x" rfl
      (by decide)⟩

end NavApi

namespace ScriptNav

/-- C8 counterexample: initializing a navigable from a document state whose
document is present yields a current session history entry whose step is
`Pending` — not `Integer 0` as the claim states (and no session-history
entry list exists in `Navigable::initialize` to append to). -/
theorem initialize_entry_step_not_zero :
    ∃ n, initialize_the_navigable nav0 ds0 (some 7) = some n ∧
      n.current_session_history_entry.step ≠
        SessionHistoryEntryStep.Integer 0 :=
  ⟨_, rfl, by decide⟩

/-- C8 amended: for a document state carrying a document,
`Navigable::initialize` builds a new entry whose step is `Pending` (the
`Default`), whose URL is the document's URL, sets it as both the current and
the active session history entry, and records the parent link — changing
nothing else and appending to no entry list (the step-0 assignment and the
append to the traversable's entries belong to creating a new top-level
traversable, not to `initialize`). -/
theorem initialize_the_navigable_spec (nav : Navigable)
    (ds : DocumentState) (parent : Option Nat) (d : SDocument)
    (h : ds.document = some d) :
    ∃ entry, convert ds = some entry ∧
      entry.step = SessionHistoryEntryStep.Pending ∧
      entry.url = d.url ∧
      initialize_the_navigable nav ds parent = some
        { nav with
            current_session_history_entry := entry
          , active_session_history_entry := entry
          , parent := parent } := by
  refine ⟨⟨SessionHistoryEntryStep.Pending, d.url, ⟨some d, false⟩,
    ScrollRestorationMode.Auto⟩, ?_, rfl, rfl, ?_⟩ <;>
    simp [convert, initialize_the_navigable, h]

/-- Witness for the amended C8 theorem at a concrete document state. -/
theorem initialize_the_navigable_spec_witness :
    ds0.document = some ⟨"https://example.test/"⟩ ∧
    (∃ entry, convert ds0 = some entry ∧
      entry.step = SessionHistoryEntryStep.Pending ∧
      entry.url = (SDocument.mk "https://example.test/").url ∧
      initialize_the_navigable nav0 ds0 (some 7) = some
        { nav0 with
            current_session_history_entry := entry
          , active_session_history_entry := entry
          , parent := some 7 }) :=
  ⟨rfl, initialize_the_navigable_spec nav0 ds0 (some 7)
    ⟨"https://example.test/"⟩ rfl⟩

end ScriptNav

namespace Constellation

/-- The seed of a maximum fold is a lower bound of its result. -/
theorem le_foldl_max : ∀ (l : List Nat) (a : Nat), a ≤ l.foldl Nat.max a := by
  intro l
  induction l with
  | nil => intro a; exact Nat.le_refl a
  | cons b t ih =>
    intro a
    exact Nat.le_trans (Nat.le_max_left a b) (ih (Nat.max a b))

/-- Every member of a list is bounded by a maximum fold over it. -/
theorem mem_le_foldl_max : ∀ (l : List Nat) (a x : Nat), x ∈ l →
    x ≤ l.foldl Nat.max a := by
  intro l
  induction l with
  | nil => intro a x hx; cases hx
  | cons b t ih =>
    intro a x hx
    rcases List.mem_cons.mp hx with rfl | hx'
    · exact Nat.le_trans (Nat.le_max_right a x) (le_foldl_max t (Nat.max a x))
    · exact ih (Nat.max a b) x hx'

/-- A maximum fold yields its seed or a member of the list. -/
theorem foldl_max_eq_or_mem : ∀ (l : List Nat) (a : Nat),
    l.foldl Nat.max a = a ∨ l.foldl Nat.max a ∈ l := by
  intro l
  induction l with
  | nil => intro a; exact Or.inl rfl
  | cons b t ih =>
    intro a
    rw [List.foldl_cons]
    rcases ih (Nat.max a b) with h | h
    · rcases Nat.le_total a b with hab | hba
      · refine Or.inr ?_
        rw [h]
        have hm : Nat.max a b = b := Nat.max_eq_right hab
        rw [hm]
        exact List.mem_cons_self b t
      · refine Or.inl ?_
        rw [h]
        exact Nat.max_eq_left hba
    · exact Or.inr (List.mem_cons_of_mem b h)

/-- The last element of a list is a member of it. -/
theorem getLast?_mem' {α : Type} : ∀ (l : List α) (e : α),
    l.getLast? = some e → e ∈ l := by
  intro l
  induction l with
  | nil => intro e he; cases he
  | cons b t ih =>
    intro e he
    cases t with
    | nil =>
      rw [List.getLast?_singleton] at he
      rw [Option.some.inj he]
      exact List.mem_singleton_self e
    | cons c t' =>
      rw [List.getLast?_cons_cons] at he
      exact List.mem_cons_of_mem b (ih e he)

/-- In a pairwise-related list, every element equals the last element or is
related to it. -/
theorem pairwise_rel_getLast {α : Type} {R : α → α → Prop} :
    ∀ (l : List α), l.Pairwise R → ∀ e, l.getLast? = some e →
      ∀ x ∈ l, x = e ∨ R x e := by
  intro l
  induction l with
  | nil => intro _ e he; cases he
  | cons b t ih =>
    intro hp e he x hx
    cases t with
    | nil =>
      rw [List.getLast?_singleton] at he
      rcases List.mem_singleton.mp hx with rfl
      exact Or.inl (Option.some.inj he)
    | cons c t' =>
      rw [List.getLast?_cons_cons] at he
      rcases List.pairwise_cons.mp hp with ⟨hb, hp'⟩
      rcases List.mem_cons.mp hx with rfl | hx'
      · exact Or.inr (hb e (getLast?_mem' _ e he))
      · exact ih hp' e he x hx'

/-- C9: the used step computed for a requested step `s` is the greatest
recorded step ≤ `s` (in particular it never exceeds `s`), provided some
recorded step is ≤ `s`; and, on an entry list whose integer steps are
non-decreasing (the entry-list ordering invariant), the target history entry
resolved at the used step is an entry of the list whose step is the greatest
integer step ≤ the used step. -/
theorem used_step_and_target_entry (steps : List Nat)
    (entries : List NavApi.SessionHistoryEntry) (s : Nat)
    (hex : ∃ t, t ∈ steps ∧ t ≤ s)
    (hsorted : entries.Pairwise (fun a b => stepLE a b = true)) :
    (get_the_used_step steps s ∈ steps ∧
     get_the_used_step steps s ≤ s ∧
     (∀ t ∈ steps, t ≤ s → t ≤ get_the_used_step steps s)) ∧
    (∀ e, get_the_target_history_entry entries (get_the_used_step steps s) =
        some e →
      e ∈ entries ∧ ∃ i,
        e.step = NavApi.SessionHistoryEntryStep.Integer i ∧
        i ≤ get_the_used_step steps s ∧
        (∀ e' ∈ entries, ∀ j,
          e'.step = NavApi.SessionHistoryEntryStep.Integer j →
          j ≤ get_the_used_step steps s → j ≤ i)) := by
  obtain ⟨t, ht, hts⟩ := hex
  have htl : t ∈ steps.filter (fun x => decide (x ≤ s)) :=
    List.mem_filter.mpr ⟨ht, decide_eq_true hts⟩
  have hmem : get_the_used_step steps s ∈ steps := by
    unfold get_the_used_step
    rcases foldl_max_eq_or_mem (steps.filter (fun x => decide (x ≤ s))) 0
      with h0 | hm
    · have hle := mem_le_foldl_max (steps.filter (fun x => decide (x ≤ s)))
        0 t htl
      rw [h0] at hle
      rw [h0, ← Nat.le_zero.mp hle]
      exact ht
    · exact List.mem_of_mem_filter hm
  have hle_s : get_the_used_step steps s ≤ s := by
    unfold get_the_used_step
    rcases foldl_max_eq_or_mem (steps.filter (fun x => decide (x ≤ s))) 0
      with h0 | hm
    · rw [h0]; exact Nat.zero_le s
    · have hd := List.of_mem_filter hm
      exact of_decide_eq_true hd
  have hgreatest : ∀ t' ∈ steps, t' ≤ s →
      t' ≤ get_the_used_step steps s := by
    intro t' ht' hts'
    exact mem_le_foldl_max _ 0 t'
      (List.mem_filter.mpr ⟨ht', decide_eq_true hts'⟩)
  refine ⟨⟨hmem, hle_s, hgreatest⟩, ?_⟩
  intro e he
  have hefl : e ∈ entries.filter
      (entry_step_within (get_the_used_step steps s)) :=
    getLast?_mem' _ e he
  have hee : e ∈ entries := List.mem_of_mem_filter hefl
  have hpe : entry_step_within (get_the_used_step steps s) e = true :=
    List.of_mem_filter hefl
  refine ⟨hee, ?_⟩
  cases hstep : e.step with
  | Pending =>
    rw [entry_step_within, hstep] at hpe
    cases hpe
  | Integer i =>
    rw [entry_step_within, hstep] at hpe
    refine ⟨i, rfl, of_decide_eq_true hpe, ?_⟩
    intro e' he' j hj hjle
    have hpe' : entry_step_within (get_the_used_step steps s) e' = true := by
      rw [entry_step_within, hj]
      exact decide_eq_true hjle
    have he'fl : e' ∈ entries.filter
        (entry_step_within (get_the_used_step steps s)) :=
      List.mem_filter.mpr ⟨he', hpe'⟩
    have hfp : (entries.filter
        (entry_step_within (get_the_used_step steps s))).Pairwise
        (fun a b => stepLE a b = true) :=
      List.Pairwise.sublist (List.filter_sublist entries) hsorted
    rcases pairwise_rel_getLast _ hfp e he e' he'fl with heq | hrel
    · rw [heq] at hj
      rw [hj] at hstep
      exact Nat.le_of_eq
        (NavApi.SessionHistoryEntryStep.Integer.inj hstep)
    · rw [stepLE, hj, hstep] at hrel
      exact of_decide_eq_true hrel

/-- Witness for the C9 theorem: recorded steps 0, 2, 5 with requested step
3 (used step 2), over a one-entry list with integer step 0. -/
theorem used_step_and_target_entry_witness :
    (∃ t, t ∈ [0, 2, 5] ∧ t ≤ 3) ∧
    ([⟨NavApi.SessionHistoryEntryStep.Integer 0, "k0"⟩] :
      List NavApi.SessionHistoryEntry).Pairwise
      (fun a b => stepLE a b = true) ∧
    ((get_the_used_step [0, 2, 5] 3 ∈ [0, 2, 5] ∧
      get_the_used_step [0, 2, 5] 3 ≤ 3 ∧
      (∀ t ∈ [0, 2, 5], t ≤ 3 → t ≤ get_the_used_step [0, 2, 5] 3)) ∧
     (∀ e, get_the_target_history_entry
         [⟨NavApi.SessionHistoryEntryStep.Integer 0, "k0"⟩]
         (get_the_used_step [0, 2, 5] 3) = some e →
       e ∈ [(⟨NavApi.SessionHistoryEntryStep.Integer 0, "k0"⟩ :
          NavApi.SessionHistoryEntry)] ∧ ∃ i,
         e.step = NavApi.SessionHistoryEntryStep.Integer i ∧
         i ≤ get_the_used_step [0, 2, 5] 3 ∧
         (∀ e' ∈ [(⟨NavApi.SessionHistoryEntryStep.Integer 0, "k0"⟩ :
             NavApi.SessionHistoryEntry)], ∀ j,
           e'.step = NavApi.SessionHistoryEntryStep.Integer j →
           j ≤ get_the_used_step [0, 2, 5] 3 → j ≤ i))) :=
  ⟨⟨2, by decide, by decide⟩, List.pairwise_singleton _ _,
    used_step_and_target_entry [0, 2, 5]
      [⟨NavApi.SessionHistoryEntryStep.Integer 0, "k0"⟩] 3
      ⟨2, by decide, by decide⟩ (List.pairwise_singleton _ _)⟩

end Constellation
